import Mathlib

/-!
Verification of `code_review.py`: a three-stage pipeline that fetches pull
request details from the GitHub API, invokes the `cody` CLI to produce a
review, and posts the review back as a PR comment.

The script is modelled as pure functions over explicit inputs:
* JSON values are an inductive `Json`; HTTP responses carry their status,
  raw text and parsed body (response bodies are assumed to parse as JSON;
  `Response.json()` is modelled as returning the stored body).
* Each network request's outcome (a response, or a `requests` exception
  optionally carrying a response) and each subprocess outcome are inputs.
* Side effects (prints with their output channel, HTTP requests, the
  subprocess invocation) are recorded as an event trace.
* `exit(n)` (which raises `SystemExit`, uncaught anywhere in the script)
  is the `exited` result; an uncaught ordinary Python exception
  (`AttributeError`, `ValueError`, `IndexError`, `TypeError`) is the
  `raised`/`pyError` result.
-/

namespace CodeReview

/-- JSON values, as produced by `response.json()`. -/
inductive Json where
  | null : Json
  | bool (b : Bool) : Json
  | num (n : Int) : Json
  | str (s : String) : Json
  | arr (elems : List Json) : Json
  | obj (fields : List (String × Json)) : Json

/-- Single-quote character (used by Python `repr` of strings). -/
def sq : String := "\x27"

mutual

/-- Python `repr` of a parsed-JSON value (dicts render with braces,
strings with single quotes; escaping inside strings is not modelled,
no claim depends on it). -/
def pyRepr : Json → String
  | .null => "None"
  | .bool true => "True"
  | .bool false => "False"
  | .num n => toString n
  | .str s => sq ++ s ++ sq
  | .arr xs => "[" ++ pyReprSeq xs ++ "]"
  | .obj kvs => "\x7b" ++ pyReprPairs kvs ++ "\x7d"

/-- Comma-separated `repr`s of list elements. -/
def pyReprSeq : List Json → String
  | [] => ""
  | [x] => pyRepr x
  | x :: xs => pyRepr x ++ ", " ++ pyReprSeq xs

/-- Comma-separated `repr`s of dict entries. -/
def pyReprPairs : List (String × Json) → String
  | [] => ""
  | [(k, v)] => sq ++ k ++ sq ++ ": " ++ pyRepr v
  | (k, v) :: kvs => sq ++ k ++ sq ++ ": " ++ pyRepr v ++ ", " ++ pyReprPairs kvs

end

/-- Python `str()` of a parsed-JSON value, as used by f-string
interpolation: `str(None) = "None"`, a string renders as itself,
containers render via `repr`. -/
def pyStr : Json → String
  | .str s => s
  | v => pyRepr v

/-- Python `d.get(key)` on a parsed-JSON value: returns the stored value
(or `None` when the key is absent) on a dict, raises `AttributeError`
on anything else. -/
def Json.pyGet : Json → String → Except String Json
  | .obj kvs, k => .ok ((List.lookup k kvs).getD .null)
  | _, _ => .error "AttributeError"

/-- Python `d.get(key, default)`: the stored value (even `None`) when the
key is present, `default` when absent; `AttributeError` on a non-dict. -/
def Json.pyGetD : Json → String → Json → Except String Json
  | .obj kvs, k, d => .ok ((List.lookup k kvs).getD d)
  | _, _, _ => .error "AttributeError"

/-- Python iteration (`for x in v`): list elements; dict keys; the
characters of a string; `TypeError` (`none`) otherwise. -/
def pyIter : Json → Option (List Json)
  | .arr xs => some xs
  | .obj kvs => some (kvs.map (fun kv => .str kv.1))
  | .str s => some (s.data.map (fun c => .str (String.singleton c)))
  | _ => none

/-- Python `str.split(sep)` for a one-character separator, on a char
list: keeps empty segments, `[""]` on the empty string. -/
def splitOnChar (c : Char) : List Char → List (List Char)
  | [] => [[]]
  | x :: xs =>
    match splitOnChar c xs with
    | [] => if x == c then [[], []] else [[x]]
    | h :: t => if x == c then [] :: h :: t else (x :: h) :: t

/-- Python `s.split(c)` for a one-character separator. -/
def pySplit (s : String) (c : Char) : List String :=
  (splitOnChar c s.data).map String.mk

/-- Characters removed by Python `str.strip()` (ASCII whitespace;
Unicode whitespace beyond these is not modelled). -/
def isPyWs (c : Char) : Bool :=
  c == ' ' || c == '\t' || c == '\n' || c == '\x0d' || c == '\x0b' || c == '\x0c'

/-- Python `s.strip()`. -/
def pyStrip (s : String) : String :=
  String.mk (((s.data.dropWhile isPyWs).reverse.dropWhile isPyWs).reverse)

/-- An HTTP response: status code, raw body text, and the body as parsed
JSON (bodies are assumed to be valid JSON). -/
structure HttpResponse where
  status : Nat
  text : String
  body : Json

/-- Outcome of a `requests.get` call followed by `raise_for_status()` is
derived from this: either a response came back, or a
`requests.exceptions.RequestException` was raised during the request,
carrying `e.response` (which is `None` for connection-level errors). -/
inductive GetOutcome where
  | resp (r : HttpResponse)
  | exn (msg : String) (response : Option HttpResponse)

/-- Output channel of a `print` call. -/
inductive OutChan where
  | stdout
  | stderr
deriving DecidableEq

/-- Observable side effects of a run, in order. -/
inductive Event where
  | print (chan : OutChan) (text : String)
  | httpGet (url : String) (auth : String)
  | httpPost (url : String) (auth : String) (payload : String)
  | subproc (cmd : List String)
deriving DecidableEq

/-- How a helper function ends: a normal return, process termination via
`exit(code)` (`SystemExit` is caught nowhere), or an uncaught ordinary
Python exception. -/
inductive StageResult where
  | ret (value : String)
  | exited (code : Nat)
  | raised (msg : String)
deriving DecidableEq

/-- URL of the pull-request resource, as built on line 27. -/
def prApiUrl (api owner repo pr : String) : String :=
  api ++ "/repos/" ++ owner ++ "/" ++ repo ++ "/pulls/" ++ pr

/-- URL of the files sub-resource, as built on line 44. -/
def filesApiUrl (api owner repo pr : String) : String :=
  prApiUrl api owner repo pr ++ "/files"

/-- The `str` of the `HTTPError` that `raise_for_status()` raises
(abstracted; the exact wording comes from the `requests` library). -/
def httpErrMsg (r : HttpResponse) : String :=
  toString r.status ++ " Error"

/-- One `try`-block of `get_pull_request_details` (lines 28-41 and
45-63): perform the GET; `raise_for_status()` raises `HTTPError` (with
`e.response` set) exactly for 4xx/5xx; the `except` handler prints the
error, and — only when `e.response is not None` — prints the API
response and calls `exit(1)`; an exception with no response therefore
falls through with nothing appended.  A successful response is rendered
by `render`, whose own exceptions (not `RequestException`s) propagate. -/
def fetchStage (url token : String) (outcome : GetOutcome)
    (render : Json → Except String String) : List Event × StageResult :=
  let ev : Event := .httpGet url ("token " ++ token)
  match outcome with
  | .resp r =>
    if 400 ≤ r.status ∧ r.status < 600 then
      ([ev, .print .stdout ("Error fetching files data: " ++ httpErrMsg r),
        .print .stdout ("API Response: " ++ r.text)], .exited 1)
    else
      match render r.body with
      | .ok s => ([ev], .ret s)
      | .error m => ([ev], .raised m)
  | .exn msg none =>
    ([ev, .print .stdout ("Error fetching files data: " ++ msg)], .ret "")
  | .exn msg (some r) =>
    ([ev, .print .stdout ("Error fetching files data: " ++ msg),
      .print .stdout ("API Response: " ++ r.text)], .exited 1)

/-- The result half of `fetchStage` (it depends only on the outcome and
the rendering, not on the url or token): used to state how one
`try`-block of `get_pull_request_details` ends. -/
def stageResult (outcome : GetOutcome)
    (render : Json → Except String String) : StageResult :=
  match outcome with
  | .resp r =>
    if 400 ≤ r.status ∧ r.status < 600 then .exited 1
    else
      match render r.body with
      | .ok s => .ret s
      | .error m => .raised m
  | .exn _ none => .ret ""
  | .exn _ (some _) => .exited 1

/-- Rendering of the PR title/body section (lines 31-35). -/
def renderPRBody (pr_data : Json) : Except String String :=
  match pr_data.pyGet "title" with
  | .error m => .error m
  | .ok title =>
    match pr_data.pyGet "body" with
    | .error m => .error m
    | .ok body =>
      .ok ("--- Pull Request Details ---\n" ++
           ("Title: " ++ pyStr title ++ "\n") ++
           ("Body:\n" ++ pyStr body ++ "\n\n"))

/-- The per-file loop body of lines 51-57, over the (already iterated)
file entries. -/
def renderFileEntries : List Json → Except String String
  | [] => .ok ""
  | fi :: rest =>
    match fi.pyGet "filename" with
    | .error m => .error m
    | .ok fn =>
      match fi.pyGetD "patch" (.str "No patch data available.") with
      | .error m => .error m
      | .ok patch =>
        match renderFileEntries rest with
        | .error m => .error m
        | .ok tail =>
          .ok ((("File Name: " ++ pyStr fn ++ "\n") ++
                "Patch:\n" ++
                "--------------------------------\n" ++
                (pyStr patch ++ "\n") ++
                "--------------------------------") ++ tail)

/-- Rendering of the changed-files section (lines 48-57). -/
def renderFilesBody (files_data : Json) : Except String String :=
  match pyIter files_data with
  | none => .error "TypeError"
  | some items =>
    match renderFileEntries items with
    | .error m => .error m
    | .ok body => .ok ("--- Changed Files ---\n" ++ body)

/-- `get_pull_request_details` (lines 14-65): two GETs in sequence,
accumulating the rendered report; a stage that exits or raises stops the
function, a swallowed no-response exception leaves its section empty. -/
def get_pull_request_details (api owner repo pr token : String)
    (prOutcome filesOutcome : GetOutcome) : List Event × StageResult :=
  let s1 := fetchStage (prApiUrl api owner repo pr) token prOutcome renderPRBody
  match s1.2 with
  | .exited c => (s1.1, .exited c)
  | .raised m => (s1.1, .raised m)
  | .ret t1 =>
    let s2 := fetchStage (filesApiUrl api owner repo pr) token filesOutcome renderFilesBody
    match s2.2 with
    | .exited c => (s1.1 ++ s2.1, .exited c)
    | .raised m => (s1.1 ++ s2.1, .raised m)
    | .ret t2 => (s1.1 ++ s2.1, .ret (t1 ++ t2))

/-- Outcome of the `subprocess.run` call in `execute_cody_cli`: the
command completed with an exit code and captured output, or the
executable was not found (`FileNotFoundError`), or some other exception
was raised.  Exit codes of a completed command are 0-255. -/
inductive CodyOutcome where
  | completed (returncode : Nat) (stdout stderr : String)
  | fileNotFound
  | otherError (msg : String)

/-- The argument list built on line 69. -/
def codyCmd (repo prompt : String) : List String :=
  ["cody", "chat", "--context-repo", repo, "-m", prompt]

/-- `execute_cody_cli` (lines 68-96).  `exit(...)` raises `SystemExit`,
which is a `BaseException` and so is not caught by the
`except Exception` clause. -/
def execute_cody_cli (repo prompt : String) (w : CodyOutcome) :
    List Event × StageResult :=
  match w with
  | .completed rc out err =>
    if rc == 0 then
      ([.subproc (codyCmd repo prompt)], .ret (pyStrip out))
    else
      ([.subproc (codyCmd repo prompt),
        .print .stdout (pyStrip err),
        .print .stderr "\n--- Command failed! ---"], .exited rc)
  | .fileNotFound =>
    ([.subproc (codyCmd repo prompt),
      .print .stderr ("Error: The command " ++ sq ++ "cody" ++ sq ++ " was not found."),
      .print .stderr ("Please ensure " ++ sq ++ "cody" ++ sq ++
        " is installed and in your system" ++ sq ++ "s PATH.")], .exited 1)
  | .otherError msg =>
    ([.subproc (codyCmd repo prompt),
      .print .stderr ("An unexpected error occurred: " ++ msg)], .exited 1)

/-- How `add_pr_comment` ends: it returns a value (the parsed response
body, or `None`); the `exited` constructor exists so that "the publish
stage never terminates the process" is a statable fact rather than a
typing accident. -/
inductive PubResult where
  | ret (value : Option Json)
  | exited (code : Nat)

/-- Outcome of the `requests.post` call: a response, or a
`requests.RequestException`. -/
inductive PostOutcome where
  | resp (r : HttpResponse)
  | exn (msg : String)

/-- URL of the issue-comments resource, as built on line 101. -/
def commentsApiUrl (api owner repo pr : String) : String :=
  api ++ "/repos/" ++ owner ++ "/" ++ repo ++ "/issues/" ++ pr ++ "/comments"

/-- `add_pr_comment` (lines 99-130): POST the comment; on status 201
print a success line and return the parsed body; on any other status
print two diagnostic lines and return `None`; on a caught
`RequestException` print one line and return `None`.  The POST payload
is a one-key JSON object mapping "body" to `comment_body`; the event
records the comment body itself (the JSON quoting is abstracted). -/
def add_pr_comment (api owner repo pr token comment_body : String)
    (w : PostOutcome) : List Event × PubResult :=
  let ev : Event := .httpPost (commentsApiUrl api owner repo pr)
    ("Bearer " ++ token) comment_body
  match w with
  | .resp r =>
    if r.status == 201 then
      ([ev, .print .stdout "Comment added successfully!"], .ret (some r.body))
    else
      ([ev, .print .stdout ("Failed to add comment. Status code: " ++ toString r.status),
        .print .stdout (pyRepr r.body)], .ret none)
  | .exn msg =>
    ([ev, .print .stdout ("An error occurred: " ++ msg)], .ret none)

/-- The process environment: `os.environ.get` returns `None` for an
unset variable. -/
def Env : Type := String → Option String

/-- Python truthiness of an `os.environ.get` result: `None` and the
empty string are falsy. -/
def truthy : Option String → Bool
  | none => false
  | some s => !(s == "")

/-- Python `a or b` on two `os.environ.get` results. -/
def pyOr (a b : Option String) : Option String :=
  if truthy a then a else b

/-- `os.environ.get(k) == s`. -/
def envEq (v : Option String) (s : String) : Bool :=
  v == some s

/-- The token chosen on line 138:
`os.environ.get("GITHUB_TOKEN") or os.environ.get("GH_TOKEN")`. -/
def selectedToken (env : Env) : Option String :=
  pyOr (env "GITHUB_TOKEN") (env "GH_TOKEN")

/-- `urlparse(url).hostname`, simplified to URLs of the form
`scheme://host[:port][/path]` (the lowercased host); a URL with no
`://` has no netloc, so `hostname` is `None`, which interpolates as
`"None"`.  Userinfo and IPv6 brackets are not modelled; no claim
depends on this value. -/
def hostnameOf (url : String) : String :=
  match url.splitOn "://" with
  | _ :: rest :: _ =>
    ((((rest.splitOn "/").headD "").splitOn ":").headD "").toLower
  | _ => "None"

/-- The unpacking `repo_owner, repo_name = ....split("/")` on line 159:
exactly two segments, else `ValueError`. -/
def parseRepo (s : String) : Option (String × String) :=
  match pySplit s '/' with
  | [owner, repo] => some (owner, repo)
  | _ => none

/-- `os.environ.get("GITHUB_REF").split("/")[2]` on line 162: the
third segment, else `IndexError`. -/
def prNumberOfRef (ref : String) : Option String :=
  (pySplit ref '/').get? 2

/-- The fixed instruction text preceding `{pr_details}` in the prompt
template (lines 168-172). -/
def promptHead : String :=
  "You are an expert code reviewer tasked with analyzing the changes in a GitHub pull request (PR).\nYour review must focus **exclusively** on the modified, added, or removed lines in the PR diffs, as provided below.\nOnly reference the broader repository codebase when necessary to understand the context of the changes (e.g., to verify referenced variables, functions, or dependencies).\nProvide clear, actionable feedback on correctness, best practices, security, and maintainability, specific to the changed lines.\n\n"

/-- The fixed instruction text following `{pr_details}` in the prompt
template (lines 174-223). -/
def promptTail : String :=
  "\n\n**Instructions**:\n1. **Analyze Only the PR Changes**:\n   - Review the diffs in each changed file, focusing solely on the added, removed, or modified lines.\n   - Check the syntax and semantics of the changes for correctness, ensuring they align with the programming language or configuration format used.\n   - Infer the purpose of the changes based on the PR title, body (if provided), and diffs. If the intent is unclear, note it and suggest seeking clarification from the PR author.\n\n2. **Contextual References (Only When Necessary)**:\n   - If the changed lines reference variables, functions, or resources (e.g., a variable in a configuration file), check the repository to confirm their definition or existence, but do not review unrelated code.\n   - Limit repository access to files directly relevant to the changes.\n\n3. **Evaluate Best Practices**:\n   - Ensure the changed lines follow best practices for the relevant language or framework (e.g., idiomatic code, clear naming, proper error handling).\n   - Check for adherence to common standards, such as documentation or formatting, but only for the modified code.\n   - Identify any anti-patterns or suboptimal changes in the diffs.\n\n4. **Security Review**:\n   - Identify potential security risks in the changed lines, such as hard-coded credentials, insecure configurations, or language-specific vulnerabilities.\n   - Suggest mitigations for any security issues in the modified code.\n\n5. **Maintainability and Clarity**:\n   - Assess whether the changed lines are clear and maintainable. Suggest improvements like adding comments or refactoring only for the modified code.\n   - Check for redundant or obsolete changes (e.g., commented-out code in the diffs) and recommend removal or documentation.\n\n6. **Potential Issues**:\n   - Highlight risks in the changed lines, such as potential bugs, breaking changes, or compatibility issues.\n   - Note any assumptions in the modified code that may not hold (e.g., unverified resources or edge cases).\n\n7. **Actionable Feedback**:\n   - Provide specific recommendations for fixes or improvements, referencing file names and line numbers from the diffs.\n   - If the changes are correct and beneficial, acknowledge their value (e.g., improved functionality or clarity).\n   - Prioritize critical issues (e.g., bugs, security risks) over stylistic improvements.\n\n8. **Formatting**:\n   - Structure your response with clear sections: **Summary**, **Issues Found**, **Recommendations**, **Benefits**, and **Questions/Clarifications**.\n   - Reference specific files and line numbers from the diffs when discussing issues or suggestions.\n   - Use bullet points for clarity and conciseness.\n\n**Additional Notes**:\n- If the PR body is empty or vague, infer the intent from the title and diffs, but note any assumptions and suggest clarifying with the PR author.\n- If the changes reference undefined variables, functions, or resources, include a request for their definitions in the **Questions/Clarifications** section.\n- The changes may involve any programming language or configuration format (e.g., Terraform, Python, JavaScript, YAML). Tailor the review to the specific language/format based on the file extensions and diff content.\n\n**Output Format**:\n- **Summary**: Brief overview of the PR changes and their inferred purpose.\n- **Issues Found**: List any problems (syntax, security, best practices) in the changed lines, with file and line references.\n- **Recommendations**: Actionable suggestions to address issues or improve the changed code.\n- **Benefits**: Positive aspects of the changes (if any).\n- **Questions/Clarifications**: Any information needed from the PR author or repository to understand the changes (e.g., definitions of referenced variables).\n"

/-- The f-string `cody_prompt` of lines 168-223. -/
def codyPrompt (pr_details : String) : String :=
  promptHead ++ pr_details ++ promptTail

/-- How the whole process ends: `exit(code)` reached (normal fall-off
of `__main__` is `exited 0`), or an uncaught ordinary Python exception
(traceback; the interpreter then exits with status 1). -/
inductive RunResult where
  | exited (code : Nat)
  | pyError (msg : String)
deriving DecidableEq

/-- The outcomes of the external world for one full run. -/
structure World where
  prGet : GetOutcome
  filesGet : GetOutcome
  cody : CodyOutcome
  post : PostOutcome

/-- Lines 164-226: fetch, invoke, publish, in sequence.  The published
comment's value is dropped; falling off the end exits 0. -/
def runPipeline (api_url repo_host owner repo pr token : String)
    (w : World) : List Event × RunResult :=
  let f := get_pull_request_details api_url owner repo pr token w.prGet w.filesGet
  match f.2 with
  | .exited c => (f.1, .exited c)
  | .raised m => (f.1, .pyError m)
  | .ret pr_details =>
    let c := execute_cody_cli (repo_host ++ "/" ++ owner ++ "/" ++ repo)
        (codyPrompt pr_details) w.cody
    match c.2 with
    | .exited k => (f.1 ++ c.1, .exited k)
    | .raised m => (f.1 ++ c.1, .pyError m)
    | .ret comment =>
      let a := add_pr_comment api_url owner repo pr token comment w.post
      match a.2 with
      | .exited k => (f.1 ++ c.1 ++ a.1, .exited k)
      | .ret _ => (f.1 ++ c.1 ++ a.1, .exited 0)

/-- The `__main__` driver (lines 133-229): gate on
`GITHUB_EVENT_NAME == "pull_request"`, validate the token and the two
Cody variables (each failure prints one message and exits 1 before any
network call), derive the API URL (with its hard-coded default), the
repo host, owner/repo and PR number, then run the pipeline. -/
def mainRun (env : Env) (w : World) : List Event × RunResult :=
  if envEq (env "GITHUB_EVENT_NAME") "pull_request" then
    if truthy (selectedToken env) then
      if truthy (env "SRC_ENDPOINT") && truthy (env "SRC_ACCESS_TOKEN") then
        let api_url := (env "GITHUB_API_URL").getD "https://api.github.com"
        match env "GITHUB_REPOSITORY" with
        | none => ([], .pyError "AttributeError")
        | some ghRepo =>
          match parseRepo ghRepo with
          | none => ([], .pyError "ValueError")
          | some (owner, repo) =>
            match env "GITHUB_REF" with
            | none => ([], .pyError "AttributeError")
            | some ghRef =>
              match prNumberOfRef ghRef with
              | none => ([], .pyError "IndexError")
              | some pr =>
                runPipeline api_url (hostnameOf api_url) owner repo pr
                  ((selectedToken env).getD "") w
      else
        ([.print .stdout "Missing required Cody environment variables: SRC_ENDPOINT and/or SRC_ACCESS_TOKEN"],
         .exited 1)
    else
      ([.print .stdout "GitHub authentication token is missing. Please set GITHUB_TOKEN or GH_TOKEN."],
       .exited 1)
  else
    ([.print .stdout "Script intended to run only in GitHub Pull Request context"],
     .exited 1)

/-- Is this event a subprocess invocation? -/
def isSubprocEv : Event → Bool
  | .subproc _ => true
  | _ => false

/-- Is this event a network request or a subprocess invocation? -/
def isExternalEv : Event → Bool
  | .httpGet _ _ => true
  | .httpPost _ _ _ => true
  | .subproc _ => true
  | .print _ _ => false

/-- Is this event a print to the given channel? -/
def isPrintTo (c : OutChan) : Event → Bool
  | .print c2 _ => c2 == c
  | _ => false

/-- The prints to standard output in a trace. -/
def stdoutPrints (evs : List Event) : List Event :=
  evs.filter (isPrintTo .stdout)

/-- The prints to standard error in a trace. -/
def stderrPrints (evs : List Event) : List Event :=
  evs.filter (isPrintTo .stderr)

/-- A fetch outcome on which the `except` handler of
`get_pull_request_details` reaches its `exit(1)`: a 4xx/5xx response
(`raise_for_status` raises an `HTTPError` carrying the response), or a
request exception that itself carries a response.  A request exception
with no response does not reach the `exit(1)`, which sits inside
`if e.response is not None`. -/
def fetchFatal : GetOutcome → Bool
  | .resp r => decide (400 ≤ r.status ∧ r.status < 600)
  | .exn _ (some _) => true
  | .exn _ none => false

/-- A fetch outcome that is a response with a 4xx/5xx status — exactly
the statuses for which `raise_for_status()` raises. -/
def httpFatalStatus : GetOutcome → Bool
  | .resp r => decide (400 ≤ r.status ∧ r.status < 600)
  | .exn _ _ => false

/-- A file entry for the golden report: filename, and the patch when
the `patch` key is present.  Rendered to JSON by `fileEntryJson`. -/
def fileEntryJson : String × Option String → Json
  | (fn, some p) => .obj [("filename", .str fn), ("patch", .str p)]
  | (fn, none) => .obj [("filename", .str fn)]

/-- Golden text for the changed-files section, written from the spec's
words: for each file, its "File Name:" line, a "Patch:" label, and the
patch text (or the placeholder when the patch is absent) between the
fixed 32-dash delimiter lines. -/
def goldenFiles : List (String × Option String) → String
  | [] => ""
  | (fn, popt) :: rest =>
    "File Name: " ++ fn ++ "\n" ++
    "Patch:\n" ++
    "--------------------------------\n" ++
    popt.getD "No patch data available." ++ "\n" ++
    "--------------------------------" ++
    goldenFiles rest

/-- Golden report text, written from the spec's words: the
"Pull Request Details" header with title and body, then the
"Changed Files" header and the per-file sections. -/
def goldenReport (title body : String) (files : List (String × Option String)) : String :=
  "--- Pull Request Details ---\n" ++
  "Title: " ++ title ++ "\n" ++
  "Body:\n" ++ body ++ "\n\n" ++
  "--- Changed Files ---\n" ++
  goldenFiles files

/-- A fully populated pull-request environment (used as a concrete
test vector). -/
def envPR : Env := fun k =>
  if k == "GITHUB_EVENT_NAME" then some "pull_request"
  else if k == "GITHUB_TOKEN" then some "t0"
  else if k == "SRC_ENDPOINT" then some "https://cody.example"
  else if k == "SRC_ACCESS_TOKEN" then some "s0"
  else if k == "GITHUB_REPOSITORY" then some "acme/widgets"
  else if k == "GITHUB_REF" then some "refs/pull/42/merge"
  else none

/-- `envPR` with both token variables removed. -/
def envNoTok : Env := fun k =>
  if k == "GITHUB_TOKEN" || k == "GH_TOKEN" then none else envPR k

/-- `envPR` with `SRC_ENDPOINT` set to the empty string. -/
def envNoCody : Env := fun k =>
  if k == "SRC_ENDPOINT" then some "" else envPR k

/-- An environment with nothing set. -/
def envEmpty : Env := fun _ => none

/-- A world in which every stage succeeds. -/
def wOk : World :=
  { prGet := .resp ⟨200, "", .obj [("title", .str "T"), ("body", .str "B")]⟩
    filesGet := .resp ⟨200, "", .arr [.obj [("filename", .str "a.py"), ("patch", .str "@@ -1 +1 @@")]]⟩
    cody := .completed 0 "Looks good." ""
    post := .resp ⟨201, "", .null⟩ }

/-- `wOk` with the first GET answered by a 300-status response (not an
error for `raise_for_status`). -/
def w300 : World := { wOk with prGet := .resp ⟨300, "", .obj []⟩ }

/-- `wOk` with the first GET raising a connection-level exception that
carries no HTTP response. -/
def wConnErr : World := { wOk with prGet := .exn "ConnectionError" none }

/-- `wOk` with the first GET answered 404. -/
def w404 : World := { wOk with prGet := .resp ⟨404, "Not Found", .str "Not Found"⟩ }

end CodeReview

namespace CodeReview

/-- Appending strings concatenates their character data. -/
theorem strData_append (a b : String) : (a ++ b).data = a.data ++ b.data := rfl

/-- The result half of a fetch stage is `stageResult`. -/
theorem fetchStage_snd (url tok : String) (o : GetOutcome)
    (render : Json → Except String String) :
    (fetchStage url tok o render).2 = stageResult o render := by
  cases o with
  | resp r =>
    by_cases hp : 400 ≤ r.status ∧ r.status < 600
    · simp [fetchStage, stageResult, hp]
    · rcases hr : render r.body with m | s <;> simp [fetchStage, stageResult, hp, hr]
  | exn msg ropt => cases ropt <;> simp [fetchStage, stageResult]

/-- A fatal fetch outcome makes the stage exit with code 1. -/
theorem fetchStage_fatal (url tok : String) (o : GetOutcome)
    (render : Json → Except String String) (h : fetchFatal o = true) :
    (fetchStage url tok o render).2 = .exited 1 := by
  cases o with
  | resp r =>
    have hp : 400 ≤ r.status ∧ r.status < 600 := of_decide_eq_true h
    simp [fetchStage, hp]
  | exn msg ropt =>
    cases ropt with
    | none => simp [fetchFatal] at h
    | some r => simp [fetchStage]

/-- A fetch stage never invokes a subprocess. -/
theorem fetchStage_no_subproc (url tok : String) (o : GetOutcome)
    (render : Json → Except String String) :
    ((fetchStage url tok o render).1).filter isSubprocEv = [] := by
  cases o with
  | resp r =>
    by_cases hp : 400 ≤ r.status ∧ r.status < 600
    · simp [fetchStage, hp, isSubprocEv]
    · rcases hr : render r.body with m | s <;> simp [fetchStage, hp, hr, isSubprocEv]
  | exn msg ropt => cases ropt <;> simp [fetchStage, isSubprocEv]

/-- A fetch stage never prints to standard error. -/
theorem fetchStage_no_stderr (url tok : String) (o : GetOutcome)
    (render : Json → Except String String) :
    stderrPrints (fetchStage url tok o render).1 = [] := by
  cases o with
  | resp r =>
    by_cases hp : 400 ≤ r.status ∧ r.status < 600
    · simp [fetchStage, hp, stderrPrints, isPrintTo]
    · rcases hr : render r.body with m | s <;> simp [fetchStage, hp, hr, stderrPrints, isPrintTo]
  | exn msg ropt => cases ropt <;> simp [fetchStage, stderrPrints, isPrintTo]

/-- A fatal fetch outcome produces exactly two stdout diagnostic
prints. -/
theorem fetchStage_fatal_stdout (url tok : String) (o : GetOutcome)
    (render : Json → Except String String) (h : fetchFatal o = true) :
    (stdoutPrints (fetchStage url tok o render).1).length = 2 := by
  cases o with
  | resp r =>
    have hp : 400 ≤ r.status ∧ r.status < 600 := of_decide_eq_true h
    simp [fetchStage, hp, stdoutPrints, isPrintTo]
  | exn msg ropt =>
    cases ropt with
    | none => simp [fetchFatal] at h
    | some r => simp [fetchStage, stdoutPrints, isPrintTo]

/-- Stderr prints distribute over trace concatenation. -/
theorem stderrPrints_append (a b : List Event) :
    stderrPrints (a ++ b) = stderrPrints a ++ stderrPrints b :=
  List.filter_append ..

/-- Stdout prints distribute over trace concatenation. -/
theorem stdoutPrints_append (a b : List Event) :
    stdoutPrints (a ++ b) = stdoutPrints a ++ stdoutPrints b :=
  List.filter_append ..

/-- The fetch function never invokes a subprocess. -/
theorem gprd_no_subproc (api owner repo pr tok : String) (prO fO : GetOutcome) :
    ((get_pull_request_details api owner repo pr tok prO fO).1).filter isSubprocEv = [] := by
  have h1 := fetchStage_no_subproc (prApiUrl api owner repo pr) tok prO renderPRBody
  have h2 := fetchStage_no_subproc (filesApiUrl api owner repo pr) tok fO renderFilesBody
  simp only [get_pull_request_details]
  rcases hs1 : (fetchStage (prApiUrl api owner repo pr) tok prO renderPRBody).2 with t | c | m
  · rcases hs2 : (fetchStage (filesApiUrl api owner repo pr) tok fO renderFilesBody).2 with t2 | c2 | m2 <;>
      simp [hs1, hs2, List.filter_append, h1, h2]
  · simp [hs1, h1]
  · simp [hs1, h1]

/-- A run whose environment passes every validation reduces to the
three-stage pipeline. -/
theorem mainRun_validated (env : Env) (w : World) (g ref o r pr : String)
    (hev : envEq (env "GITHUB_EVENT_NAME") "pull_request" = true)
    (htok : truthy (selectedToken env) = true)
    (hend : truthy (env "SRC_ENDPOINT") = true)
    (hacc : truthy (env "SRC_ACCESS_TOKEN") = true)
    (hrepo : env "GITHUB_REPOSITORY" = some g)
    (hpar : parseRepo g = some (o, r))
    (href : env "GITHUB_REF" = some ref)
    (hnum : prNumberOfRef ref = some pr) :
    mainRun env w =
      runPipeline ((env "GITHUB_API_URL").getD "https://api.github.com")
        (hostnameOf ((env "GITHUB_API_URL").getD "https://api.github.com"))
        o r pr ((selectedToken env).getD "") w := by
  simp [mainRun, hev, htok, hend, hacc, hrepo, hpar, href, hnum]

/-- C1 counterexample: a network exception with no attached HTTP
response during the first GET is not fatal — `get_pull_request_details`
returns a partial report (missing the PR-details section) instead of
the process exiting with code 1, refuting the claim that every
fetch-stage failure terminates the process. -/
theorem c1_cex :
    (get_pull_request_details "https://ghe.example/api/v3" "eekwong" "cody-code-review" "7" "tk"
        (.exn "Connection refused" none) (.resp ⟨200, "", .arr []⟩)).2
      = .ret "--- Changed Files ---\n" := rfl

/-- C1 (amended): a fetch failure that carries an HTTP response — a
4xx/5xx status, or a request exception with an attached response — is
fatal from either stage (the process exits with code 1); but a request
exception carrying no response is merely logged: the function continues
and returns a report missing that stage's section. -/
theorem c1_fetch_fatality (api owner repo pr tok : String) (prO fO : GetOutcome) :
    (fetchFatal prO = true →
      (get_pull_request_details api owner repo pr tok prO fO).2 = .exited 1)
  ∧ ((∃ t, stageResult prO renderPRBody = .ret t) → fetchFatal fO = true →
      (get_pull_request_details api owner repo pr tok prO fO).2 = .exited 1)
  ∧ (∀ m t, prO = .exn m none → stageResult fO renderFilesBody = .ret t →
      (get_pull_request_details api owner repo pr tok prO fO).2 = .ret t) := by
  refine ⟨?_, ?_, ?_⟩
  · intro h
    have h1 := fetchStage_fatal (prApiUrl api owner repo pr) tok prO renderPRBody h
    simp [get_pull_request_details, h1]
  · rintro ⟨t, ht⟩ hf
    have hs1 : (fetchStage (prApiUrl api owner repo pr) tok prO renderPRBody).2 = .ret t :=
      (fetchStage_snd ..).trans ht
    have h2 := fetchStage_fatal (filesApiUrl api owner repo pr) tok fO renderFilesBody hf
    simp [get_pull_request_details, hs1, h2]
  · rintro m t rfl h2
    have hs1 : (fetchStage (prApiUrl api owner repo pr) tok (.exn m none) renderPRBody).2 = .ret "" := by
      simp [fetchStage]
    have hs2 : (fetchStage (filesApiUrl api owner repo pr) tok fO renderFilesBody).2 = .ret t :=
      (fetchStage_snd ..).trans h2
    simp only [get_pull_request_details, hs1, hs2]
    show StageResult.ret ("" ++ t) = StageResult.ret t
    rfl

/-- C1 witness: the non-fatal branch of the amended claim at a concrete
connection error. -/
theorem c1_witness :
    (get_pull_request_details "https://api.github.com" "acme" "widgets" "42" "t0"
        (.exn "ConnectionError" none) (.resp ⟨200, "", .arr []⟩)).2
      = .ret "--- Changed Files ---\n" :=
  (c1_fetch_fatality "https://api.github.com" "acme" "widgets" "42" "t0"
      (.exn "ConnectionError" none) (.resp ⟨200, "", .arr []⟩)).2.2
    "ConnectionError" "--- Changed Files ---\n" rfl rfl

/-- When both GETs succeed with a well-formed PR object and files array,
the per-file loop renders exactly the golden per-file text. -/
theorem renderFileEntries_golden (files : List (String × Option String)) :
    renderFileEntries (files.map fileEntryJson) = .ok (goldenFiles files) := by
  induction files with
  | nil => rfl
  | cons f rest ih =>
    obtain ⟨fn, popt⟩ := f
    cases popt <;>
      simp only [List.map, fileEntryJson, renderFileEntries, Json.pyGet, Json.pyGetD,
        List.lookup, ih] <;>
      (congr 1
       apply String.ext
       simp [strData_append, List.append_assoc, pyStr, goldenFiles])

/-- C2: for every pull-request object (with title and body fields) and
files array, the successful run of get_pull_request_details performs the
two GETs and returns exactly the golden report text, with the
"No patch data available." placeholder substituted exactly when the
patch key is absent. -/
theorem c2_golden_report (api owner repo pr tok t1 t2 title body : String)
    (files : List (String × Option String)) :
    get_pull_request_details api owner repo pr tok
        (.resp ⟨200, t1, .obj [("title", .str title), ("body", .str body)]⟩)
        (.resp ⟨200, t2, .arr (files.map fileEntryJson)⟩)
      = ([.httpGet (prApiUrl api owner repo pr) ("token " ++ tok),
          .httpGet (filesApiUrl api owner repo pr) ("token " ++ tok)],
         .ret (goldenReport title body files)) := by
  have h2 : renderFilesBody (.arr (files.map fileEntryJson))
      = .ok ("--- Changed Files ---\n" ++ goldenFiles files) := by
    simp [renderFilesBody, pyIter, renderFileEntries_golden files]
  simp only [get_pull_request_details, fetchStage, h2, renderPRBody, Json.pyGet, List.lookup]
  norm_num
  apply String.ext
  simp [strData_append, List.append_assoc, pyStr, goldenReport]

/-- C3 counterexample: a 300-status (non-2xx) response to the PR GET is
not an error for raise_for_status, so the run completes with exit code 0
and the review tool is invoked once — refuting "non-2xx implies exit 1
and no review-tool invocation". -/
theorem c3_cex :
    (mainRun envPR w300).2 = .exited 0
    ∧ ((mainRun envPR w300).1.filter isSubprocEv).length = 1 := ⟨rfl, rfl⟩

/-- C3 (amended): when the driver's validation passes, a 4xx/5xx status
from the PR-details GET — or, provided the first stage returned, from
the files GET — makes the process exit with code 1 without ever invoking
the external review tool. -/
theorem c3_fetch_error_blocks_review (env : Env) (w : World) (g ref o r pr : String)
    (hev : envEq (env "GITHUB_EVENT_NAME") "pull_request" = true)
    (htok : truthy (selectedToken env) = true)
    (hend : truthy (env "SRC_ENDPOINT") = true)
    (hacc : truthy (env "SRC_ACCESS_TOKEN") = true)
    (hrepo : env "GITHUB_REPOSITORY" = some g)
    (hpar : parseRepo g = some (o, r))
    (href : env "GITHUB_REF" = some ref)
    (hnum : prNumberOfRef ref = some pr)
    (hfatal : httpFatalStatus w.prGet = true ∨
      ((∃ t, stageResult w.prGet renderPRBody = .ret t) ∧ httpFatalStatus w.filesGet = true)) :
    (mainRun env w).2 = .exited 1
    ∧ (mainRun env w).1.filter isSubprocEv = [] := by
  rw [mainRun_validated env w g ref o r pr hev htok hend hacc hrepo hpar href hnum]
  set apiU := (env "GITHUB_API_URL").getD "https://api.github.com"
  have hff : ∀ x : GetOutcome, httpFatalStatus x = true → fetchFatal x = true := by
    intro x hx
    cases x with
    | resp rr => exact hx
    | exn m ro => simp [httpFatalStatus] at hx
  have hgprd : (get_pull_request_details apiU o r pr ((selectedToken env).getD "")
      w.prGet w.filesGet).2 = .exited 1 := by
    rcases hfatal with h | ⟨⟨t, ht⟩, h⟩
    · have h1 := fetchStage_fatal (prApiUrl apiU o r pr) ((selectedToken env).getD "")
        w.prGet renderPRBody (hff _ h)
      simp [get_pull_request_details, h1]
    · have hs1 : (fetchStage (prApiUrl apiU o r pr) ((selectedToken env).getD "")
          w.prGet renderPRBody).2 = .ret t := (fetchStage_snd ..).trans ht
      have h2 := fetchStage_fatal (filesApiUrl apiU o r pr) ((selectedToken env).getD "")
        w.filesGet renderFilesBody (hff _ h)
      simp [get_pull_request_details, hs1, h2]
  constructor
  · simp [runPipeline, hgprd]
  · simp only [runPipeline, hgprd]
    exact gprd_no_subproc ..

/-- C3 witness: a concrete 404 on the PR GET under a fully validated
environment. -/
theorem c3_witness :
    (mainRun envPR w404).2 = .exited 1
    ∧ (mainRun envPR w404).1.filter isSubprocEv = [] :=
  c3_fetch_error_blocks_review envPR w404 "acme/widgets" "refs/pull/42/merge"
    "acme" "widgets" "42" rfl rfl rfl rfl rfl rfl rfl rfl (Or.inl (by decide))

/-- C4: a non-zero exit code of the review command terminates the
process with that same exit code, and a missing executable terminates it
with exit code 1. -/
theorem c4_subprocess_exit_codes (repo prompt out err : String) (rc : Nat) (h : rc ≠ 0) :
    (execute_cody_cli repo prompt (.completed rc out err)).2 = .exited rc
    ∧ (execute_cody_cli repo prompt .fileNotFound).2 = .exited 1 := by
  have hb : (rc == 0) = false := by simpa using h
  constructor
  · simp [execute_cody_cli, hb]
  · simp [execute_cody_cli]

/-- C4 witness: exit code 5 propagates; file-not-found exits 1. -/
theorem c4_witness :
    (execute_cody_cli "h/acme/widgets" "prompt" (.completed 5 "" "boom")).2 = .exited 5
    ∧ (execute_cody_cli "h/acme/widgets" "prompt" .fileNotFound).2 = .exited 1 :=
  c4_subprocess_exit_codes "h/acme/widgets" "prompt" "" "boom" 5 (by decide)

/-- C5: add_pr_comment returns the parsed response body exactly on
status 201; any other status, and any caught request exception, yields
None; and every path returns — the publish stage never terminates the
process. -/
theorem c5_publish_contract (api owner repo pr tok cb : String) (w : PostOutcome) :
    (∀ resp, w = .resp resp → resp.status = 201 →
      (add_pr_comment api owner repo pr tok cb w).2 = .ret (some resp.body))
  ∧ (∀ resp, w = .resp resp → resp.status ≠ 201 →
      (add_pr_comment api owner repo pr tok cb w).2 = .ret none)
  ∧ (∀ m, w = .exn m → (add_pr_comment api owner repo pr tok cb w).2 = .ret none)
  ∧ (∃ v, (add_pr_comment api owner repo pr tok cb w).2 = .ret v) := by
  refine ⟨?_, ?_, ?_, ?_⟩
  · rintro resp rfl hs
    simp [add_pr_comment, hs]
  · rintro resp rfl hs
    have hb : (resp.status == 201) = false := by simpa using hs
    simp [add_pr_comment, hb]
  · rintro m rfl
    simp [add_pr_comment]
  · rcases w with resp | m
    · by_cases hs : resp.status == 201 <;> simp [add_pr_comment, hs]
    · exact ⟨none, by simp [add_pr_comment]⟩

/-- C5 witness: a 201 returns the parsed body; a 500 returns None. -/
theorem c5_witness :
    (add_pr_comment "a" "o" "r" "1" "tk" "body" (.resp ⟨201, "", .null⟩)).2 = .ret (some .null)
    ∧ (add_pr_comment "a" "o" "r" "1" "tk" "body" (.resp ⟨500, "", .null⟩)).2 = .ret none :=
  ⟨(c5_publish_contract "a" "o" "r" "1" "tk" "body" (.resp ⟨201, "", .null⟩)).1
      ⟨201, "", .null⟩ rfl rfl,
   (c5_publish_contract "a" "o" "r" "1" "tk" "body" (.resp ⟨500, "", .null⟩)).2.1
      ⟨500, "", .null⟩ rfl (by decide)⟩

/-- C6: with the pull-request gate passed, a falsy token pair prints the
token message and exits 1 before any event; a falsy SRC_ENDPOINT or
SRC_ACCESS_TOKEN (with the token present) prints the Cody message and
exits 1 before any event; and whenever GITHUB_TOKEN is non-empty it is
the token selected (first non-empty wins). -/
theorem c6_env_validation (env : Env) (w : World)
    (hev : envEq (env "GITHUB_EVENT_NAME") "pull_request" = true) :
    (truthy (selectedToken env) = false →
      mainRun env w =
        ([.print .stdout "GitHub authentication token is missing. Please set GITHUB_TOKEN or GH_TOKEN."],
         .exited 1))
  ∧ (truthy (selectedToken env) = true →
     (truthy (env "SRC_ENDPOINT") = false ∨ truthy (env "SRC_ACCESS_TOKEN") = false) →
      mainRun env w =
        ([.print .stdout "Missing required Cody environment variables: SRC_ENDPOINT and/or SRC_ACCESS_TOKEN"],
         .exited 1))
  ∧ (truthy (env "GITHUB_TOKEN") = true → selectedToken env = env "GITHUB_TOKEN") := by
  refine ⟨?_, ?_, ?_⟩
  · intro h
    simp [mainRun, hev, h]
  · intro ht hor
    rcases hor with h | h <;> simp [mainRun, hev, ht, h]
  · intro hgt
    simp [selectedToken, pyOr, hgt]

/-- C6 witness: concrete missing-token and empty-SRC_ENDPOINT
environments. -/
theorem c6_witness :
    mainRun envNoTok wOk =
      ([.print .stdout "GitHub authentication token is missing. Please set GITHUB_TOKEN or GH_TOKEN."],
       .exited 1)
    ∧ mainRun envNoCody wOk =
      ([.print .stdout "Missing required Cody environment variables: SRC_ENDPOINT and/or SRC_ACCESS_TOKEN"],
       .exited 1) :=
  ⟨(c6_env_validation envNoTok wOk rfl).1 rfl,
   (c6_env_validation envNoCody wOk rfl).2.1 rfl (Or.inl rfl)⟩

/-- C7: GITHUB_REPOSITORY "acme/widgets" yields owner "acme" and repo
"widgets"; GITHUB_REF "refs/pull/42/merge" yields PR number "42" (the
third slash-separated segment); and a run with those variables addresses
its first GET to the corresponding pulls resource. -/
theorem c7_context_parsing :
    parseRepo "acme/widgets" = some ("acme", "widgets")
    ∧ prNumberOfRef "refs/pull/42/merge" = some "42"
    ∧ (mainRun envPR wOk).1.get? 0
        = some (.httpGet "https://api.github.com/repos/acme/widgets/pulls/42" "token t0") :=
  ⟨rfl, rfl, rfl⟩

/-- C8: when GITHUB_EVENT_NAME is unset or differs from "pull_request",
the process prints the context message and exits with code 1, and its
event trace contains no network request and no subprocess invocation. -/
theorem c8_event_gate (env : Env) (w : World)
    (h : envEq (env "GITHUB_EVENT_NAME") "pull_request" = false) :
    mainRun env w =
      ([.print .stdout "Script intended to run only in GitHub Pull Request context"], .exited 1)
    ∧ (mainRun env w).1.filter isExternalEv = [] := by
  constructor
  · simp [mainRun, h]
  · simp [mainRun, h, isExternalEv]

/-- C8 witness: the empty environment. -/
theorem c8_witness :
    mainRun envEmpty wOk =
      ([.print .stdout "Script intended to run only in GitHub Pull Request context"], .exited 1)
    ∧ (mainRun envEmpty wOk).1.filter isExternalEv = [] :=
  c8_event_gate envEmpty wOk rfl

/-- C9 counterexample: on a 404 during the first GET both diagnostic
lines go to standard output, and nothing is printed to standard error —
refuting the claim that they are written to the standard error
stream. -/
theorem c9_cex :
    (get_pull_request_details "https://api.github.com" "eekwong" "cody-code-review" "7" "tk"
        (.resp ⟨404, "Not Found", .str "Not Found"⟩) (.resp ⟨200, "", .arr []⟩))
      = ([.httpGet (prApiUrl "https://api.github.com" "eekwong" "cody-code-review" "7") "token tk",
          .print .stdout "Error fetching files data: 404 Error",
          .print .stdout "API Response: Not Found"], .exited 1) := rfl

/-- C9 (amended): on every fatal fetch failure the diagnostic lines (the
error description and the API response body) are written to standard
output — not standard error — before the process terminates with exit
code 1. -/
theorem c9_diag_channel (api owner repo pr tok : String) (prO fO : GetOutcome) :
    (fetchFatal prO = true →
      (get_pull_request_details api owner repo pr tok prO fO).2 = .exited 1
      ∧ stderrPrints (get_pull_request_details api owner repo pr tok prO fO).1 = []
      ∧ (stdoutPrints (get_pull_request_details api owner repo pr tok prO fO).1).length = 2)
  ∧ ((∃ t, stageResult prO renderPRBody = .ret t) → fetchFatal fO = true →
      (get_pull_request_details api owner repo pr tok prO fO).2 = .exited 1
      ∧ stderrPrints (get_pull_request_details api owner repo pr tok prO fO).1 = []
      ∧ 2 ≤ (stdoutPrints (get_pull_request_details api owner repo pr tok prO fO).1).length) := by
  constructor
  · intro h
    have h1 := fetchStage_fatal (prApiUrl api owner repo pr) tok prO renderPRBody h
    refine ⟨by simp [get_pull_request_details, h1], ?_, ?_⟩
    · simp only [get_pull_request_details, h1]
      exact fetchStage_no_stderr ..
    · simp only [get_pull_request_details, h1]
      exact fetchStage_fatal_stdout _ _ _ _ h
  · rintro ⟨t, ht⟩ hf
    have hs1 : (fetchStage (prApiUrl api owner repo pr) tok prO renderPRBody).2 = .ret t :=
      (fetchStage_snd ..).trans ht
    have h2 := fetchStage_fatal (filesApiUrl api owner repo pr) tok fO renderFilesBody hf
    refine ⟨by simp [get_pull_request_details, hs1, h2], ?_, ?_⟩
    · simp only [get_pull_request_details, hs1, h2]
      rw [stderrPrints_append]
      simp [fetchStage_no_stderr]
    · simp only [get_pull_request_details, hs1, h2]
      rw [stdoutPrints_append, List.length_append]
      have := fetchStage_fatal_stdout (filesApiUrl api owner repo pr) tok fO renderFilesBody hf
      omega

/-- C9 witness: a concrete 500 on the first GET. -/
theorem c9_witness :
    (get_pull_request_details "https://api.github.com" "acme" "widgets" "42" "t0"
        (.resp ⟨500, "ISE", .null⟩) (.resp ⟨200, "", .arr []⟩)).2 = .exited 1
    ∧ stderrPrints (get_pull_request_details "https://api.github.com" "acme" "widgets" "42" "t0"
        (.resp ⟨500, "ISE", .null⟩) (.resp ⟨200, "", .arr []⟩)).1 = []
    ∧ (stdoutPrints (get_pull_request_details "https://api.github.com" "acme" "widgets" "42" "t0"
        (.resp ⟨500, "ISE", .null⟩) (.resp ⟨200, "", .arr []⟩)).1).length = 2 :=
  (c9_diag_channel "https://api.github.com" "acme" "widgets" "42" "t0"
      (.resp ⟨500, "ISE", .null⟩) (.resp ⟨200, "", .arr []⟩)).1 (by decide)

/-- C10: a file entry whose patch key holds a null value renders the
text "None" in the patch position; the "No patch data available."
placeholder appears exactly when the patch key is absent — a present
key, even with a null value, always yields the stored value. -/
theorem c10_null_patch (fn : String) :
    renderFileEntries [.obj [("filename", .str fn), ("patch", .null)]]
      = .ok ("File Name: " ++ fn ++ "\n" ++ "Patch:\n" ++
             "--------------------------------\n" ++ "None" ++ "\n" ++
             "--------------------------------")
    ∧ renderFileEntries [.obj [("filename", .str fn)]]
      = .ok ("File Name: " ++ fn ++ "\n" ++ "Patch:\n" ++
             "--------------------------------\n" ++ "No patch data available." ++ "\n" ++
             "--------------------------------")
    ∧ (∀ kvs v, List.lookup "patch" kvs = some v →
        Json.pyGetD (.obj kvs) "patch" (.str "No patch data available.") = .ok v) := by
  refine ⟨?_, ?_, ?_⟩
  · simp only [renderFileEntries, Json.pyGet, Json.pyGetD, List.lookup]
    congr 1
    apply String.ext
    simp [strData_append, List.append_assoc, pyStr, pyRepr]
  · simp only [renderFileEntries, Json.pyGet, Json.pyGetD, List.lookup]
    congr 1
    apply String.ext
    simp [strData_append, List.append_assoc, pyStr, pyRepr]
  · intro kvs v h
    simp [Json.pyGetD, h]

/-- C10 witness: a patch key present with a null value yields the null
value rather than the placeholder. -/
theorem c10_witness :
    Json.pyGetD (.obj [("patch", Json.null)]) "patch" (.str "No patch data available.") = .ok .null :=
  (c10_null_patch "f.py").2.2 [("patch", Json.null)] .null rfl

end CodeReview
